import Mathlib

/-!
Verification of the two example scripts of this repository:
`src/docs.py` (document QA pipeline) and
`src/examples/prompt_template_example.py` (prompt templating demo).

The scripts are glue around an external LLM orchestration library.  The
library's `PromptTemplate.format` and `TextLoader.load` are not part of
this repository's sources, so those two operations are modelled from the
spec (section 4.1 Loader and section 4.5 TemplateRenderer); the control
flow of the two scripts themselves is embedded from the Python sources.
-/

namespace Spec2Proof

/-- A piece of a parsed template: literal text or a named placeholder. -/
inductive Tok where
  | lit (s : String)
  | ph (name : String)
deriving DecidableEq, Repr

/-- Modelled from the spec: the template scanner behind LangChain's
`PromptTemplate` (not under `src/`), which reads a template string as
literal text interleaved with `\x7bname\x7d` placeholders.  The first
argument is the mode: `false` while inside literal text, `true` while
inside a placeholder name; the third argument accumulates the current
run of characters in reverse. -/
def scanTokens : Bool → List Char → List Char → List Tok
  | false, [], acc => if acc.isEmpty then [] else [Tok.lit (String.mk acc.reverse)]
  | false, '{' :: cs, acc =>
      if acc.isEmpty then scanTokens true cs []
      else Tok.lit (String.mk acc.reverse) :: scanTokens true cs []
  | false, c :: cs, acc => scanTokens false cs (c :: acc)
  | true, [], acc => [Tok.ph (String.mk acc.reverse)]
  | true, '}' :: cs, acc => Tok.ph (String.mk acc.reverse) :: scanTokens false cs []
  | true, c :: cs, acc => scanTokens true cs (c :: acc)

/-- Parse a template string into its tokens. -/
def tokenize (t : String) : List Tok := scanTokens false t.data []

/-- The placeholder names of a token list, in order of occurrence and
with multiplicity. -/
def phNames (toks : List Tok) : List String :=
  toks.filterMap fun t => match t with | .lit _ => none | .ph n => some n

/-- Rendering failure: a placeholder with no value at render time. -/
inductive RenderError where
  | MissingVariable (name : String)
deriving DecidableEq, Repr

/-- Modelled from the spec: the merge rule of explicit runtime values
over partial (default) values — LangChain's merge of `partial_variables`
with call-time keyword arguments is not under `src/`.  An explicit
binding for a name hides any partial binding for the same name. -/
def mergedVars (ev dv : List (String × String)) (n : String) : Option String :=
  match ev.lookup n with
  | some v => some v
  | none => dv.lookup n

/-- Modelled from the spec: substitution over parsed tokens — LangChain's
`PromptTemplate.format` is not under `src/`.  A single left-to-right pass;
a placeholder with no value fails with `MissingVariable`. -/
def renderToks (vars : String → Option String) : List Tok → Except RenderError String
  | [] => .ok ""
  | .lit s :: ts => (renderToks vars ts).map (fun r => s ++ r)
  | .ph n :: ts =>
      match vars n with
      | none => .error (.MissingVariable n)
      | some v => (renderToks vars ts).map (fun r => v ++ r)

/-- The fully substituted text: each literal kept, each placeholder
replaced by its value (empty if absent; only used under coverage). -/
def substAll (vars : String → Option String) : List Tok → String
  | [] => ""
  | .lit s :: ts => s ++ substAll vars ts
  | .ph n :: ts => ((vars n).getD "") ++ substAll vars ts

/-- Render a template string given explicit values `ev` and partial
(default) values `dv`. -/
def formatTemplate (t : String) (ev dv : List (String × String)) :
    Except RenderError String :=
  renderToks (mergedVars ev dv) (tokenize t)

/-- The `PromptTemplate` object of `langchain.prompts`, as constructed by
`src/examples/prompt_template_example.py`: a template string, its declared
input variables, and optional pre-filled partial variables. -/
structure PromptTemplate where
  input_variables : List String
  template : String
  partial_variables : List (String × String) := []
deriving DecidableEq, Repr

/-- Modelled from the spec: `PromptTemplate.format` (not under `src/`)
renders the template with call-time keyword arguments, the explicit
arguments overriding the partial variables. -/
def PromptTemplate.format (p : PromptTemplate) (kwargs : List (String × String)) :
    Except RenderError String :=
  formatTemplate p.template kwargs p.partial_variables

/-- The `OpenAI` LLM handle: the scripts configure it only through its
sampling temperature. -/
structure OpenAI where
  temperature : ℚ
deriving DecidableEq, Repr

/-- One attempted generation call: the configured sampling temperature
and the rendered prompt submitted to the model. -/
structure GenCall where
  temperature : ℚ
  prompt : String
deriving DecidableEq, Repr

/-- How the templating demo run can fail (modulo the external library
raising something else): the explicit credential check, a template
rendering error, or a remote LLM failure. -/
inductive DemoError where
  | configError (msg : String)
  | renderError (e : RenderError)
  | llmError (msg : String)
deriving DecidableEq, Repr

/-- The `ValueError` message of the credential check in `main`
(`src/examples/prompt_template_example.py`, lines 33-37). -/
def apiKeyErrorMsg : String :=
  "OPENAI_API_KEY environment variable not set. Please set it before running this example."

/-- `LLMChain(llm=…, prompt=p).run(kwargs)`: render the prompt, then
submit it to the generative model, whose answer comes from the oracle
`respond` (`.error` is a remote-service failure).  Returns the list of
generation calls attempted, alongside the result. -/
def chainRun (respond : GenCall → Except String String) (llm : OpenAI)
    (p : PromptTemplate) (kwargs : List (String × String)) :
    List GenCall × Except DemoError String :=
  match p.format kwargs with
  | .error e => ([], .error (.renderError e))
  | .ok prompt =>
      let c : GenCall := ⟨llm.temperature, prompt⟩
      match respond c with
      | .error m => ([c], .error (.llmError m))
      | .ok out => ([c], .ok out)

/-- The LLM of the templating demo
(`src/examples/prompt_template_example.py`, line 65). -/
def demoLLM : OpenAI := ⟨0.7⟩

/-- Example 1 template, with `\x7btopic\x7d` occurring twice
(`src/examples/prompt_template_example.py`, lines 51-55). -/
def simple_template : String :=
  "You are a helpful assistant. \n    \nQuestion: What is {topic}?\n\nAnswer: Let me explain {topic} in simple terms."

/-- Example 1 prompt (lines 58-61). -/
def simple_prompt : PromptTemplate :=
  { input_variables := ["topic"], template := simple_template }

/-- Example 2 template (lines 85-89). -/
def multi_template : String :=
  "You are a marketing copywriter.\n\nWrite a {tone} product description for {product} targeting {audience}.\n\nProduct Description:"

/-- Example 2 prompt (lines 91-94). -/
def multi_prompt : PromptTemplate :=
  { input_variables := ["product", "audience", "tone"], template := multi_template }

/-- Example 3 prompt (lines 119-122). -/
def code_template : PromptTemplate :=
  { input_variables := ["language", "code"],
    template := "Explain the following {language} code:\n\n{code}\n\nExplanation:" }

/-- Example 4 prompt with a pre-filled partial variable (lines 151-155). -/
def partial_template : PromptTemplate :=
  { input_variables := ["question"],
    template := "You are an expert in {domain}. Answer this question: {question}",
    partial_variables := [("domain", "artificial intelligence")] }

/-- The `main` function of the templating demo: check the credential,
then run the four chains in order, stopping at the first failure.
`env` is the process environment (`os.getenv`); `respond` answers the
generation calls.  Returns the generation calls attempted, in order,
alongside the outcome. -/
def demoRun (env : String → Option String) (respond : GenCall → Except String String) :
    List GenCall × Except DemoError Unit :=
  match env "OPENAI_API_KEY" with
  | none => ([], .error (.configError apiKeyErrorMsg))
  | some k =>
    if k = "" then ([], .error (.configError apiKeyErrorMsg))
    else
      match chainRun respond demoLLM simple_prompt [("topic", "photosynthesis")] with
      | (t1, .error e) => (t1, .error e)
      | (t1, .ok _) =>
        match chainRun respond demoLLM multi_prompt
            [("product", "eco-friendly water bottle"),
             ("audience", "environmentally conscious millennials"),
             ("tone", "enthusiastic and inspiring")] with
        | (t2, .error e) => (t1 ++ t2, .error e)
        | (t2, .ok _) =>
          match code_template.format
              [("language", "Python"), ("code", "result = [x**2 for x in range(10)]")] with
          | .error e => (t1 ++ t2, .error (.renderError e))
          | .ok _ =>
            match chainRun respond demoLLM code_template
                [("language", "Python"), ("code", "result = [x**2 for x in range(10)]")] with
            | (t3, .error e) => (t1 ++ t2 ++ t3, .error e)
            | (t3, .ok _) =>
              match chainRun respond demoLLM partial_template
                  [("question", "What is machine learning?")] with
              | (t4, .error e) => (t1 ++ t2 ++ t3 ++ t4, .error e)
              | (t4, .ok _) => (t1 ++ t2 ++ t3 ++ t4, .ok ())

/-- The message Python prints for a caught exception (`str(e)`). -/
def DemoError.message : DemoError → String
  | .configError m => m
  | .renderError (.MissingVariable n) => n
  | .llmError m => m

/-- The `if __name__ == "__main__"` block (lines 171-178): run `main`
under a `try`/`except Exception` that prints the error and a remediation
hint; either way the interpreter then falls off the end of the script and
the process exits with status zero.  Returns (exit status, lines printed
by the top-level handler). -/
def topLevelRun (env : String → Option String)
    (respond : GenCall → Except String String) : Nat × List String :=
  match (demoRun env respond).2 with
  | .ok _ => (0, [])
  | .error e =>
      (0, ["Error: " ++ e.message,
           "\nMake sure you have:",
           "1. Installed required packages: pip install langchain openai",
           "2. Set OPENAI_API_KEY environment variable"])

/-- A loaded document: its source path and full text. -/
structure Document where
  source : String
  text : String
deriving DecidableEq, Repr

/-- How loading a file can fail: missing path, or bytes that do not
decode under the requested encoding. -/
inductive LoadError where
  | NotFound
  | DecodeError
deriving DecidableEq, Repr

/-- The `TextLoader` of `langchain.document_loaders` as constructed by
`src/docs.py` line 19: a file path and a text encoding. -/
structure TextLoader where
  file_path : String
  encoding : String
deriving DecidableEq, Repr

/-- Modelled from the spec: `TextLoader.load` (not under `src/`) reads
the whole file at the loader's path and decodes it under the loader's
encoding, producing one `Document` holding the file's full text as a
single fragment.  `fs` maps a path to the file's bytes when it exists;
`decode` decodes a byte sequence under an encoding name when possible. -/
def TextLoader.load (L : TextLoader) (fs : String → Option (List Nat))
    (decode : String → List Nat → Option String) : Except LoadError (List Document) :=
  match fs L.file_path with
  | none => .error .NotFound
  | some bytes =>
      match decode L.encoding bytes with
      | none => .error .DecodeError
      | some txt => .ok [⟨L.file_path, txt⟩]

/-- How the QA pipeline run can fail. -/
inductive DocsError where
  | loadError (e : LoadError)
  | embedError (msg : String)
  | llmError (msg : String)
deriving DecidableEq, Repr

/-- The LLM of the QA pipeline (`src/docs.py`, line 28). -/
def qaLLM : OpenAI := ⟨0⟩

/-- The fixed question of the QA pipeline (`src/docs.py`, line 30). -/
def qaQuestion : String := "Summarize the main point of the document."

/-- Modelled from the spec: the "stuff" chain combines the retrieved
context fragments and the question into one prompt; the exact prompt
wording is owned by the external library. -/
def stuffPrompt (ctx : List Document) (question : String) : String :=
  String.intercalate "\n\n" (ctx.map Document.text) ++ "\n\n" ++ question

/-- The `main` function of `src/docs.py`: load the document, embed it
(a network call to the embedding service, answered by `embed`), then run
the RetrievalQA chain, whose single generation call is answered by
`respond`.  Returns the generation calls attempted alongside the
outcome. -/
def docsRun (fs : String → Option (List Nat))
    (decode : String → List Nat → Option String)
    (embed : List String → Except String (List (List ℚ)))
    (respond : GenCall → Except String String) :
    List GenCall × Except DocsError String :=
  match TextLoader.load ⟨"examples/sample_doc.txt", "utf8"⟩ fs decode with
  | .error e => ([], .error (.loadError e))
  | .ok docs =>
      match embed (docs.map Document.text) with
      | .error m => ([], .error (.embedError m))
      | .ok _ =>
          let c : GenCall := ⟨qaLLM.temperature, stuffPrompt docs qaQuestion⟩
          match respond c with
          | .error m => ([c], .error (.llmError m))
          | .ok ans => ([c], .ok ans)

deriving instance DecidableEq for Except

/-! Helper lemmas shared by the claim theorems. -/

/-- String concatenation is associative (via the underlying char lists). -/
theorem str_append_assoc (a b c : String) : a ++ b ++ c = a ++ (b ++ c) := by
  apply String.ext
  simp [String.data_append, List.append_assoc]

/-- Canonical form of `renderToks`: it fails on the first placeholder
without a value, and otherwise substitutes every placeholder. -/
theorem renderToks_eq (vars : String → Option String) (toks : List Tok) :
    renderToks vars toks =
      match (phNames toks).find? (fun n => (vars n).isNone) with
      | some n => .error (.MissingVariable n)
      | none => .ok (substAll vars toks) := by
  induction toks with
  | nil => simp [renderToks, phNames, substAll]
  | cons t ts ih =>
    cases t with
    | lit s =>
      have hph : phNames (Tok.lit s :: ts) = phNames ts := by
        simp [phNames]
      rw [renderToks, ih, hph]
      cases h : (phNames ts).find? (fun n => (vars n).isNone) <;>
        simp [substAll, h, Except.map]
    | ph n =>
      have hph : phNames (Tok.ph n :: ts) = n :: phNames ts := by
        simp [phNames]
      cases hv : vars n with
      | none =>
        rw [renderToks]
        simp [hv, hph, List.find?]
      | some v =>
        rw [renderToks, ih, hph]
        simp only [List.find?]
        simp [hv]
        cases h : (phNames ts).find? (fun n => (vars n).isNone) <;>
          simp [substAll, h, hv, Except.map]

/-- `renderToks` fails with `MissingVariable` exactly when some
placeholder has no value. -/
theorem render_error_iff (vars : String → Option String) (toks : List Tok) :
    (∃ n, renderToks vars toks = .error (.MissingVariable n)) ↔
      ∃ n ∈ phNames toks, vars n = none := by
  rw [renderToks_eq]
  cases h : (phNames toks).find? (fun n => (vars n).isNone) with
  | none =>
    simp only [List.find?_eq_none] at h
    simp only [Option.isNone_iff_eq_none] at h
    constructor
    · rintro ⟨n, hn⟩; cases hn
    · rintro ⟨n, hn, hv⟩; exact absurd hv (by simpa using h n hn)
  | some m =>
    have := List.find?_some h
    have hm := List.mem_of_find?_eq_some h
    simp only [Option.isNone_iff_eq_none, decide_eq_true_eq] at this
    constructor
    · rintro -; exact ⟨m, hm, this⟩
    · rintro -; exact ⟨m, rfl⟩

/-- Under full coverage, `renderToks` succeeds and substitutes every
placeholder. -/
theorem render_covered (vars : String → Option String) (toks : List Tok)
    (h : ∀ n ∈ phNames toks, (vars n).isSome) :
    renderToks vars toks = .ok (substAll vars toks) := by
  rw [renderToks_eq]
  have : (phNames toks).find? (fun n => (vars n).isNone) = none := by
    rw [List.find?_eq_none]
    intro n hn
    simp [Option.isNone_iff_eq_none, Option.isSome_iff_exists] at *
    rcases h n hn with ⟨v, hv⟩
    simp [hv]
  rw [this]

/-- A name has no merged value exactly when it has neither an explicit
nor a partial value. -/
theorem mergedVars_eq_none (ev dv : List (String × String)) (n : String) :
    mergedVars ev dv n = none ↔ ev.lookup n = none ∧ dv.lookup n = none := by
  rcases h : ev.lookup n with _ | v <;> simp [mergedVars, h]

/-- Every generation call attempted by an `LLMChain` run carries the
chain's configured sampling temperature. -/
theorem mem_chainRun_fst {respond : GenCall → Except String String} {llm : OpenAI}
    {p : PromptTemplate} {kwargs : List (String × String)} {c : GenCall}
    {pr : List GenCall × Except DemoError String}
    (hpr : chainRun respond llm p kwargs = pr) (hc : c ∈ pr.1) :
    c.temperature = llm.temperature := by
  subst hpr
  rcases hf : p.format kwargs with e | prompt
  · simp [chainRun, hf] at hc
  · rcases hr : respond ⟨llm.temperature, prompt⟩ with m | out <;>
      simp [chainRun, hf, hr] at hc <;> simp [hc]

/-! The claim theorems. -/

/-- C1: rendering a template fails with a `MissingVariable` error if and
only if some placeholder of the template has neither an explicit nor a
partial value; when every placeholder is covered, rendering succeeds and
substitutes every placeholder. -/
theorem format_missingVariable_iff (t : String) (ev dv : List (String × String)) :
    ((∃ n, formatTemplate t ev dv = .error (.MissingVariable n)) ↔
      ∃ n ∈ phNames (tokenize t), ev.lookup n = none ∧ dv.lookup n = none) ∧
    ((∀ n ∈ phNames (tokenize t), (ev.lookup n).isSome ∨ (dv.lookup n).isSome) →
      formatTemplate t ev dv = .ok (substAll (mergedVars ev dv) (tokenize t))) := by
  constructor
  · rw [show (∃ n, formatTemplate t ev dv = .error (.MissingVariable n)) ↔
        ∃ n ∈ phNames (tokenize t), mergedVars ev dv n = none from
      render_error_iff (mergedVars ev dv) (tokenize t)]
    constructor
    · rintro ⟨n, hn, hm⟩; exact ⟨n, hn, (mergedVars_eq_none ev dv n).1 hm⟩
    · rintro ⟨n, hn, hm⟩; exact ⟨n, hn, (mergedVars_eq_none ev dv n).2 hm⟩
  · intro h
    apply render_covered (mergedVars ev dv) (tokenize t)
    intro n hn
    rcases h n hn with hs | hs
    · rcases Option.isSome_iff_exists.1 hs with ⟨v, hv⟩
      simp [mergedVars, hv]
    · rcases Option.isSome_iff_exists.1 hs with ⟨v, hv⟩
      rcases he : ev.lookup n with _ | w <;> simp [mergedVars, he, hv]

/-- Witness for C1: a concrete covered template renders successfully,
through the theorem's success direction. -/
theorem format_missingVariable_iff_witness :
    (∀ n ∈ phNames (tokenize "a \x7bx\x7d b"),
        (([("x", "1")] : List (String × String)).lookup n).isSome ∨
        (([] : List (String × String)).lookup n).isSome) ∧
      formatTemplate "a \x7bx\x7d b" [("x", "1")] [] = .ok "a 1 b" := by
  have h : ∀ n ∈ phNames (tokenize "a \x7bx\x7d b"),
      (([("x", "1")] : List (String × String)).lookup n).isSome ∨
      (([] : List (String × String)).lookup n).isSome := by
    decide
  refine ⟨h, ?_⟩
  have := (format_missingVariable_iff "a \x7bx\x7d b" [("x", "1")] []).2 h
  rw [this]
  decide

/-- C2: when a name has both a partial (default) value and an explicit
value at render time, the merged mapping and the rendered output use the
explicit value. -/
theorem explicit_overrides (ev dv : List (String × String)) (n v w : String)
    (hv : ev.lookup n = some v) (hw : dv.lookup n = some w) :
    mergedVars ev dv n = some v ∧
      renderToks (mergedVars ev dv) [Tok.ph n] = .ok v := by
  have hm : mergedVars ev dv n = some v := by simp [mergedVars, hv]
  refine ⟨hm, ?_⟩
  simp [renderToks, hm, Except.map, String.append_empty]

/-- Witness for C2: an explicit `domain` value overrides the partial
`domain` value of the demo's Example 4 shape. -/
theorem explicit_overrides_witness :
    ([("domain", "security")].lookup "domain" = some "security" ∧
      [("domain", "artificial intelligence")].lookup "domain" = some "artificial intelligence") ∧
    (mergedVars [("domain", "security")] [("domain", "artificial intelligence")] "domain" =
        some "security" ∧
      renderToks (mergedVars [("domain", "security")] [("domain", "artificial intelligence")])
          [Tok.ph "domain"] = .ok "security") :=
  ⟨⟨by decide, by decide⟩,
    explicit_overrides [("domain", "security")] [("domain", "artificial intelligence")]
      "domain" "security" "artificial intelligence" (by decide) (by decide)⟩

/-- C3: rendering is deterministic — two renderings of a covered
template with identical mappings produce identical strings. -/
theorem render_deterministic (vars : String → Option String) (toks : List Tok)
    (hcov : ∀ n ∈ phNames toks, (vars n).isSome) (s₁ s₂ : String)
    (h₁ : renderToks vars toks = .ok s₁) (h₂ : renderToks vars toks = .ok s₂) :
    s₁ = s₂ := by
  rw [h₁] at h₂
  simpa using h₂

/-- Witness for C3: two renderings of a concrete covered template agree. -/
theorem render_deterministic_witness :
    renderToks (mergedVars [("name", "World")] []) (tokenize "Hello \x7bname\x7d") =
        .ok "Hello World" ∧
      "Hello World" = "Hello World" :=
  ⟨by decide,
    render_deterministic (mergedVars [("name", "World")] []) (tokenize "Hello \x7bname\x7d")
      (by decide) "Hello World" "Hello World" (by decide) (by decide)⟩

/-- C4: loading a non-existent path fails with `NotFound`; loading an
existing file whose bytes decode under the given encoding returns one
`Document` — a single fragment — whose text is exactly the decoded
content. -/
theorem loader_contract (fs : String → Option (List Nat))
    (decode : String → List Nat → Option String) (path enc : String) :
    (fs path = none → TextLoader.load ⟨path, enc⟩ fs decode = .error .NotFound) ∧
    (∀ bytes txt, fs path = some bytes → decode enc bytes = some txt →
      TextLoader.load ⟨path, enc⟩ fs decode = .ok [⟨path, txt⟩]) := by
  constructor
  · intro h; simp [TextLoader.load, h]
  · intro bytes txt hb ht; simp [TextLoader.load, hb, ht]

/-- Witness for C4: a missing path yields `NotFound`; a two-byte ASCII
file loads as the single document "hi". -/
theorem loader_contract_witness :
    TextLoader.load ⟨"missing.txt", "utf8"⟩ (fun _ => none)
        (fun _ bs => if bs.all (fun b => b < 128)
          then some (String.mk (bs.map Char.ofNat)) else none) = .error .NotFound ∧
    TextLoader.load ⟨"examples/sample_doc.txt", "utf8"⟩
        (fun p => if p = "examples/sample_doc.txt" then some [104, 105] else none)
        (fun _ bs => if bs.all (fun b => b < 128)
          then some (String.mk (bs.map Char.ofNat)) else none) =
      .ok [⟨"examples/sample_doc.txt", "hi"⟩] :=
  ⟨(loader_contract _ _ "missing.txt" "utf8").1 rfl,
   (loader_contract _ _ "examples/sample_doc.txt" "utf8").2 [104, 105] "hi"
     (by decide) (by decide)⟩

/-- C5: with the credential environment variable absent, the templating
demo fails with the configuration error and attempts no network call
(the generation-call trace is empty). -/
theorem missing_credential_fails_fast (env : String → Option String)
    (respond : GenCall → Except String String) (h : env "OPENAI_API_KEY" = none) :
    demoRun env respond = ([], .error (.configError apiKeyErrorMsg)) := by
  simp [demoRun, h]

/-- Witness for C5: a concrete empty environment. -/
theorem missing_credential_fails_fast_witness :
    demoRun (fun _ => none) (fun _ => .ok "") = ([], .error (.configError apiKeyErrorMsg)) :=
  missing_credential_fails_fast (fun _ => none) (fun _ => .ok "") rfl

/-- C6: the template "Explain \x7blanguage\x7d code: \x7bcode\x7d" with
`language="Python"` and `code="x=1"` renders to exactly
"Explain Python code: x=1". -/
theorem scenario1_render :
    formatTemplate "Explain {language} code: {code}"
        [("language", "Python"), ("code", "x=1")] [] =
      .ok "Explain Python code: x=1" := by
  decide

/-- C7: the QA pipeline's generative model is constructed with
temperature 0 and every generation call of that flow carries it; the
templating demo's model is constructed with temperature 0.7 and every
generation call of that flow carries it. -/
theorem temperatures :
    qaLLM.temperature = 0 ∧ demoLLM.temperature = 0.7 ∧
    (∀ fs decode embed respond, ∀ c ∈ (docsRun fs decode embed respond).1,
      c.temperature = 0) ∧
    (∀ env respond, ∀ c ∈ (demoRun env respond).1, c.temperature = 0.7) := by
  refine ⟨rfl, rfl, ?_, ?_⟩
  · intro fs decode embed respond c hc
    rcases hl : TextLoader.load ⟨"examples/sample_doc.txt", "utf8"⟩ fs decode with e | docs
    · simp [docsRun, hl] at hc
    · rcases he : embed (docs.map Document.text) with m | vs
      · simp [docsRun, hl, he] at hc
      · rcases hr : respond ⟨qaLLM.temperature, stuffPrompt docs qaQuestion⟩ with m | ans <;>
          simp [docsRun, hl, he, hr] at hc <;> simp [hc, qaLLM]
  · intro env respond c hc
    rcases hk : env "OPENAI_API_KEY" with _ | k
    · simp [demoRun, hk] at hc
    · rw [demoRun, hk] at hc
      dsimp only at hc
      by_cases hk0 : k = ""
      · simp [hk0] at hc
      · rw [if_neg hk0] at hc
        rcases h1 : chainRun respond demoLLM simple_prompt [("topic", "photosynthesis")]
          with ⟨t1, r1⟩
        rw [h1] at hc
        rcases r1 with e1 | u1
        · exact mem_chainRun_fst h1 hc
        · rcases h2 : chainRun respond demoLLM multi_prompt
              [("product", "eco-friendly water bottle"),
               ("audience", "environmentally conscious millennials"),
               ("tone", "enthusiastic and inspiring")] with ⟨t2, r2⟩
          rw [h2] at hc
          rcases r2 with e2 | u2
          · rcases List.mem_append.1 hc with hm | hm
            · exact mem_chainRun_fst h1 hm
            · exact mem_chainRun_fst h2 hm
          · rcases hf : code_template.format
                [("language", "Python"), ("code", "result = [x**2 for x in range(10)]")]
              with ef | pf
            · rw [hf] at hc
              rcases List.mem_append.1 hc with hm | hm
              · exact mem_chainRun_fst h1 hm
              · exact mem_chainRun_fst h2 hm
            · rw [hf] at hc
              rcases h3 : chainRun respond demoLLM code_template
                  [("language", "Python"), ("code", "result = [x**2 for x in range(10)]")]
                with ⟨t3, r3⟩
              rw [h3] at hc
              rcases r3 with e3 | u3
              · rcases List.mem_append.1 hc with hm | hm
                · rcases List.mem_append.1 hm with hm' | hm'
                  · exact mem_chainRun_fst h1 hm'
                  · exact mem_chainRun_fst h2 hm'
                · exact mem_chainRun_fst h3 hm
              · rcases h4 : chainRun respond demoLLM partial_template
                    [("question", "What is machine learning?")] with ⟨t4, r4⟩
                rw [h4] at hc
                have hmem : c ∈ t1 ++ t2 ++ t3 ++ t4 := by
                  rcases r4 with e4 | u4 <;> simpa using hc
                rcases List.mem_append.1 hmem with hm | hm
                · rcases List.mem_append.1 hm with hm' | hm'
                  · rcases List.mem_append.1 hm' with hm'' | hm''
                    · exact mem_chainRun_fst h1 hm''
                    · exact mem_chainRun_fst h2 hm''
                  · exact mem_chainRun_fst h3 hm'
                · exact mem_chainRun_fst h4 hm

/-- C8: whatever the environment and the remote service do, the
templating demo's top-level handler catches the error, prints it with
the remediation hint, and the process exits with status zero. -/
theorem demo_exits_zero (env : String → Option String)
    (respond : GenCall → Except String String) :
    (topLevelRun env respond).1 = 0 ∧
    (∀ e, (demoRun env respond).2 = .error e →
      (topLevelRun env respond).2 =
        ["Error: " ++ e.message,
         "\nMake sure you have:",
         "1. Installed required packages: pip install langchain openai",
         "2. Set OPENAI_API_KEY environment variable"]) := by
  constructor
  · rcases h : (demoRun env respond).2 with e | u <;> simp [topLevelRun, h]
  · intro e he; simp [topLevelRun, he]

/-- Witness for C8: the missing-credential run exits with status zero
and prints the remediation hint. -/
theorem demo_exits_zero_witness :
    (topLevelRun (fun _ => none) (fun _ => .ok "")).1 = 0 ∧
    (topLevelRun (fun _ => none) (fun _ => .ok "")).2 =
      ["Error: " ++ (DemoError.configError apiKeyErrorMsg).message,
       "\nMake sure you have:",
       "1. Installed required packages: pip install langchain openai",
       "2. Set OPENAI_API_KEY environment variable"] :=
  ⟨(demo_exits_zero (fun _ => none) (fun _ => .ok "")).1,
   (demo_exits_zero (fun _ => none) (fun _ => .ok "")).2
     (DemoError.configError apiKeyErrorMsg) (by decide)⟩

/-- C9: an empty-string credential is treated like an absent one — the
demo raises the configuration error before attempting any network call. -/
theorem empty_credential_fails_fast (env : String → Option String)
    (respond : GenCall → Except String String) (h : env "OPENAI_API_KEY" = some "") :
    demoRun env respond = ([], .error (.configError apiKeyErrorMsg)) := by
  simp [demoRun, h]

/-- Witness for C9: a concrete environment with an empty credential. -/
theorem empty_credential_fails_fast_witness :
    demoRun (fun _ => some "") (fun _ => .ok "") = ([], .error (.configError apiKeyErrorMsg)) :=
  empty_credential_fails_fast (fun _ => some "") (fun _ => .ok "") rfl

/-- C10: the demo's Example 1 template contains the placeholder `topic`
twice, and rendering it with any value `t` bound to `topic` substitutes
both occurrences with that same value. -/
theorem topic_occurs_twice (t : String) :
    phNames (tokenize simple_template) = ["topic", "topic"] ∧
    formatTemplate simple_template [("topic", t)] [] =
      .ok ("You are a helpful assistant. \n    \nQuestion: What is " ++ t ++
        "?\n\nAnswer: Let me explain " ++ t ++ " in simple terms.") := by
  have htok : tokenize simple_template =
      [Tok.lit "You are a helpful assistant. \n    \nQuestion: What is ",
       Tok.ph "topic",
       Tok.lit "?\n\nAnswer: Let me explain ",
       Tok.ph "topic",
       Tok.lit " in simple terms."] := by decide
  have hv : mergedVars [("topic", t)] [] "topic" = some t := rfl
  constructor
  · rw [htok]; decide
  · rw [formatTemplate, htok]
    simp only [renderToks, hv, Except.map]
    rw [String.append_empty]
    simp only [str_append_assoc]

end Spec2Proof
